import Mathlib

/-!
Verification of the EvenSteven shared-expense ledger's balance engine.

The definitions below are a shallow embedding of the Python source:
monetary amounts (Python `Decimal` values with two fraction digits) become
integers counted in cents (`ℤ`), which the engine's operations (sums, min,
abs, comparison, negation) are closed over, Django querysets become
lists of records, and the aggregate `Sum(...)` (which yields `None` on an
empty queryset, coerced to `0.00` by `or Decimal('0.00')`) becomes an
`Option ℤ` aggregation followed by `orZero`.  Users and groups are
identified by their numeric ids.
-/

/-- Row of `expenses.models.Expense` (fields relevant to balances). -/
structure Expense where
  id : Nat
  group : Nat
  paid_by : Nat
  amount : ℤ
deriving DecidableEq, Repr

/-- Row of `expenses.models.ExpenseSplit`; `expense` is the parent expense id. -/
structure ExpenseSplit where
  expense : Nat
  user : Nat
  amount : ℤ
deriving DecidableEq, Repr

/-- Row of `expenses.models.Payment`; `group` is nullable in the source. -/
structure Payment where
  from_user : Nat
  to_user : Nat
  group : Option Nat
  amount : ℤ
deriving DecidableEq, Repr

/-- Row of `settlements.models.Settlement`; `group` is nullable in the source. -/
structure Settlement where
  from_user : Nat
  to_user : Nat
  group : Option Nat
  amount : ℤ
deriving DecidableEq, Repr

/-- Row of `groups.models.GroupMember`, carrying the cached `balance` field. -/
structure GroupMember where
  group : Nat
  user : Nat
  status : String
  balance : ℤ
deriving DecidableEq, Repr

/-- The ledger event store: all rows the balance engine queries. -/
structure DB where
  expenses : List Expense
  splits : List ExpenseSplit
  payments : List Payment
  settlements : List Settlement
  members : List GroupMember
deriving DecidableEq, Repr

/-- Django `aggregate(total=Sum('amount'))['total']`: `none` on an empty queryset. -/
def aggSum (l : List ℤ) : Option ℤ :=
  if l.isEmpty then none else some l.sum

/-- The `or Decimal('0.00')` coercion applied to every aggregate in the source. -/
def orZero (o : Option ℤ) : ℤ := o.getD 0

/-- Group of the expense a split row joins to (`expense__group` lookup). -/
def expenseGroup (db : DB) (eid : Nat) : Option Nat :=
  (db.expenses.find? (fun e => decide (e.id = eid))).map Expense.group

/-- `BalanceManager.calculate_member_balance` (groups/balance_manager.py,
lines 37-89): six filtered aggregates combined in source order. -/
def calculate_member_balance (db : DB) (g u : Nat) : ℤ :=
  let expenses_paid :=
    orZero (aggSum ((db.expenses.filter
      (fun e => decide (e.group = g ∧ e.paid_by = u))).map Expense.amount))
  let expense_splits :=
    orZero (aggSum ((db.splits.filter
      (fun s => decide (expenseGroup db s.expense = some g ∧ s.user = u))).map ExpenseSplit.amount))
  let payments_made :=
    orZero (aggSum ((db.payments.filter
      (fun p => decide (p.group = some g ∧ p.from_user = u))).map Payment.amount))
  let payments_received :=
    orZero (aggSum ((db.payments.filter
      (fun p => decide (p.group = some g ∧ p.to_user = u))).map Payment.amount))
  let settlements_made :=
    orZero (aggSum ((db.settlements.filter
      (fun s => decide (s.group = some g ∧ s.from_user = u))).map Settlement.amount))
  let settlements_received :=
    orZero (aggSum ((db.settlements.filter
      (fun s => decide (s.group = some g ∧ s.to_user = u))).map Settlement.amount))
  0 + expenses_paid - expense_splits + payments_made - payments_received
    + settlements_made - settlements_received

/-- `BalanceManager.calculate_balance_between_users`
(groups/balance_manager.py, lines 282-366).  For each expense paid by
`u1` the source adds `u2`'s split amount when one exists (found by
`.first()`; the `(expense, user)` pair is unique in the schema), and
symmetrically subtracts `u1`'s split on expenses paid by `u2`; then it
subtracts payments and settlements from `u2` to `u1` and adds those from
`u1` to `u2`. -/
def calculate_balance_between_users (db : DB) (g u1 u2 : Nat) : ℤ :=
  let user1_expense_part :=
    ((db.expenses.filter (fun e => decide (e.group = g ∧ e.paid_by = u1))).map
      (fun e =>
        match db.splits.find? (fun s => decide (s.expense = e.id ∧ s.user = u2)) with
        | some s => s.amount
        | none => 0)).sum
  let user2_expense_part :=
    ((db.expenses.filter (fun e => decide (e.group = g ∧ e.paid_by = u2))).map
      (fun e =>
        match db.splits.find? (fun s => decide (s.expense = e.id ∧ s.user = u1)) with
        | some s => s.amount
        | none => 0)).sum
  let payments_to_user1 :=
    orZero (aggSum ((db.payments.filter
      (fun p => decide (p.group = some g ∧ p.from_user = u2 ∧ p.to_user = u1))).map Payment.amount))
  let payments_to_user2 :=
    orZero (aggSum ((db.payments.filter
      (fun p => decide (p.group = some g ∧ p.from_user = u1 ∧ p.to_user = u2))).map Payment.amount))
  let settlements_to_user1 :=
    orZero (aggSum ((db.settlements.filter
      (fun s => decide (s.group = some g ∧ s.from_user = u2 ∧ s.to_user = u1))).map Settlement.amount))
  let settlements_to_user2 :=
    orZero (aggSum ((db.settlements.filter
      (fun s => decide (s.group = some g ∧ s.from_user = u1 ∧ s.to_user = u2))).map Settlement.amount))
  0 + user1_expense_part - user2_expense_part
    - payments_to_user1 + payments_to_user2
    - settlements_to_user1 + settlements_to_user2

/-- Per-member `net_balance` computed by the `group_payment_summary`
endpoint (expenses/views.py, lines 336-417): for a member of the group,
its dict accumulation amounts to four filtered sums combined as
`total_paid - total_owed + payments_received - payments_made`; settlements
are not queried at all. -/
def summary_net_balance (db : DB) (g u : Nat) : ℤ :=
  let total_paid :=
    ((db.expenses.filter (fun e => decide (e.group = g ∧ e.paid_by = u))).map Expense.amount).sum
  let total_owed :=
    ((db.splits.filter
      (fun s => decide (expenseGroup db s.expense = some g ∧ s.user = u))).map ExpenseSplit.amount).sum
  let payments_made :=
    ((db.payments.filter (fun p => decide (p.group = some g ∧ p.from_user = u))).map Payment.amount).sum
  let payments_received :=
    ((db.payments.filter (fun p => decide (p.group = some g ∧ p.to_user = u))).map Payment.amount).sum
  total_paid - total_owed + payments_received - payments_made

/-- The empty event store. -/
def dbEmpty : DB :=
  { expenses := [], splits := [], payments := [], settlements := [], members := [] }

/-- Three-member group scenario (amounts in cents): user 1 paid a 30.00
expense split 10.00/10.00/10.00 among users 1, 2, 3, then user 2 made a
10.00 payment to user 1. -/
def dbScenario : DB :=
  { expenses := [⟨1, 1, 1, 3000⟩],
    splits := [⟨1, 1, 1000⟩, ⟨1, 2, 1000⟩, ⟨1, 3, 1000⟩],
    payments := [⟨2, 1, some 1, 1000⟩],
    settlements := [],
    members := [⟨1, 1, "active", 1000⟩, ⟨1, 2, "active", 0⟩, ⟨1, 3, "active", -1000⟩] }

/-- Event store holding a single 10.00 payment from user 2 to user 1 in
group 1; both users are members. -/
def dbOnePayment : DB :=
  { expenses := [], splits := [],
    payments := [⟨2, 1, some 1, 1000⟩],
    settlements := [],
    members := [⟨1, 1, "active", 1000⟩, ⟨1, 2, "active", -1000⟩] }

/-- One entry of the `member_balances` mapping handed to the planner
(expenses/views.py): a user id, a display name and a signed net balance. -/
structure MemberBalance where
  user_id : Nat
  user_name : String
  net_balance : ℤ
deriving DecidableEq, Repr

/-- A creditor or debtor record built by `_generate_settlement_suggestions`,
carrying the remaining amount to receive (creditor) or to pay (debtor). -/
structure Party where
  user_id : Nat
  user_name : String
  amount : ℤ
deriving DecidableEq, Repr

/-- One settlement suggestion emitted by the planner. -/
structure Suggestion where
  from_user_id : Nat
  from_user_name : String
  to_user_id : Nat
  to_user_name : String
  amount : ℤ
deriving DecidableEq, Repr

/-- Creditor partition: members with `net_balance > 0`, keeping the balance. -/
def creditorsOf (ms : List MemberBalance) : List Party :=
  ms.filterMap (fun b =>
    if 0 < b.net_balance then some ⟨b.user_id, b.user_name, b.net_balance⟩ else none)

/-- Debtor partition: members with `net_balance < 0`, stored as `abs(net)`. -/
def debtorsOf (ms : List MemberBalance) : List Party :=
  ms.filterMap (fun b =>
    if b.net_balance < 0 then some ⟨b.user_id, b.user_name, |b.net_balance|⟩ else none)

/-- Inner loop of `_generate_settlement_suggestions` (expenses/views.py,
lines 448-466) for one debtor: walk the creditor list in order, skip when
`debt_remaining <= 0 or creditor.amount <= 0`, otherwise transfer
`min(debt_remaining, creditor.amount)`, emitting a suggestion and
decrementing both remainders.  Returns the debtor's final remainder, the
updated creditor list and the suggestions in emission order. -/
def settleDebtor (d : Party) (rem : ℤ) : List Party → ℤ × List Party × List Suggestion
  | [] => (rem, [], [])
  | c :: cs =>
    if rem ≤ 0 ∨ c.amount ≤ 0 then
      let p := settleDebtor d rem cs
      (p.1, c :: p.2.1, p.2.2)
    else
      let amt := min rem c.amount
      let p := settleDebtor d (rem - amt) cs
      (p.1, ⟨c.user_id, c.user_name, c.amount - amt⟩ :: p.2.1,
        ⟨d.user_id, d.user_name, c.user_id, c.user_name, amt⟩ :: p.2.2)

/-- Outer loop of the planner: process debtors in their given order
against the (mutated, shared) creditor list.  Returns the final creditor
list, all suggestions in emission order, and each debtor's final
`debt_remaining`. -/
def planDebtors : List Party → List Party → List Party × List Suggestion × List ℤ
  | [], creds => (creds, [], [])
  | d :: ds, creds =>
    let q := settleDebtor d d.amount creds
    let r := planDebtors ds q.2.1
    (r.1, q.2.2 ++ r.2.1, q.1 :: r.2.2)

/-- `_generate_settlement_suggestions` (expenses/views.py, lines 420-468). -/
def generate_settlement_suggestions (ms : List MemberBalance) : List Suggestion :=
  (planDebtors (debtorsOf ms) (creditorsOf ms)).2.1

/-- Sum of the remaining amounts of a creditor/debtor list. -/
def partySum (l : List Party) : ℤ := (l.map Party.amount).sum

/-- Total amount carried by a list of suggestions. -/
def suggestionSum (l : List Suggestion) : ℤ := (l.map Suggestion.amount).sum

/-- Sum of the positive balances of a member list. -/
def posSum (ms : List MemberBalance) : ℤ :=
  ((ms.filter (fun b => decide (0 < b.net_balance))).map MemberBalance.net_balance).sum

/-- Sum of the absolute values of the negative balances of a member list. -/
def negAbsSum (ms : List MemberBalance) : ℤ :=
  ((ms.filter (fun b => decide (b.net_balance < 0))).map
    (fun b => |b.net_balance|)).sum

/-- The spec's planner scenario: balances A = +40.00, B = -20.00,
C = -20.00 (in cents). -/
def scenarioBalances : List MemberBalance :=
  [⟨1, "A", 4000⟩, ⟨2, "B", -2000⟩, ⟨3, "C", -2000⟩]

/-- Users of the group's membership rows. -/
def groupUsers (db : DB) (g : Nat) : List Nat :=
  (db.members.filter (fun m => decide (m.group = g))).map GroupMember.user

/-- Sum of the Balance Calculator's results over the group's members. -/
def balancesSum (db : DB) (g : Nat) : ℤ :=
  ((groupUsers db g).map (fun u => calculate_member_balance db g u)).sum

/-- Group 1 whose single member (user 1) paid a 30.00 expense carrying no
splits; every event references only members of the group. -/
def dbNoSplits : DB :=
  { expenses := [⟨1, 1, 1, 3000⟩], splits := [], payments := [], settlements := [],
    members := [⟨1, 1, "active", 3000⟩] }

/-- `BalanceManager.update_member_balance` (groups/balance_manager.py,
lines 91-112): recompute the formula and write it into the matching
membership row; a no-op when no such row exists. -/
def update_member_balance (db : DB) (g u : Nat) : DB :=
  { db with members := db.members.map (fun m =>
      if m.group = g ∧ m.user = u then
        { m with balance := calculate_member_balance db g u }
      else m) }

/-- `BalanceManager.process_expense_balance_update`
(groups/balance_manager.py, lines 432-455): update the payer's balance,
then the balance of every user holding a split of this expense. -/
def process_expense_balance_update (db : DB) (e : Expense) : DB :=
  let db1 := update_member_balance db e.group e.paid_by
  ((db1.splits.filter (fun s => decide (s.expense = e.id))).map ExpenseSplit.user).foldl
    (fun d u => update_member_balance d e.group u) db1

/-- Saving an existing expense row (a `PATCH` through `ExpenseSerializer`
replaces the row's fields), followed by the `post_save` receiver
`update_balances_on_expense_change` (groups/signals.py, lines 20-23). -/
def expense_save (db : DB) (e : Expense) : DB :=
  process_expense_balance_update
    { db with expenses := db.expenses.map (fun x => if x.id = e.id then e else x) } e

/-- Initial store for the staleness scenario: group 1 with members 1 and
2, one 30.00 expense paid by user 1 and no splits; both cached balances
agree with the Balance Calculator. -/
def dbStale0 : DB :=
  { expenses := [⟨1, 1, 1, 3000⟩], splits := [], payments := [], settlements := [],
    members := [⟨1, 1, "active", 3000⟩, ⟨1, 2, "active", 0⟩] }

/-- The same expense row with its payer changed from user 1 to user 2. -/
def expStale : Expense := ⟨1, 1, 2, 3000⟩

/-- Cached balance stored for `(group, user)`, when the membership exists. -/
def cachedBalance (db : DB) (g u : Nat) : Option ℤ :=
  (db.members.find? (fun m => decide (m.group = g ∧ m.user = u))).map GroupMember.balance

/-- `BalanceManager.process_settlement_balance_update`
(groups/balance_manager.py, lines 470-481): when the settlement carries a
group, recompute both involved users' balances. -/
def process_settlement_balance_update (db : DB) (s : Settlement) : DB :=
  match s.group with
  | some g => update_member_balance (update_member_balance db g s.from_user) g s.to_user
  | none => db

/-- `Settlement.save` (settlements/models.py, lines 47-51): raise
`ValueError` before any row is written when the amount is non-positive;
otherwise insert the row, after which the `post_save` receiver
`update_balances_on_settlement_change` (groups/signals.py, lines 70-73)
fires the balance update. -/
def settlement_save (db : DB) (s : Settlement) : Except String DB :=
  if s.amount ≤ 0 then .error "Settlement amount must be positive."
  else .ok (process_settlement_balance_update
    { db with settlements := db.settlements ++ [s] } s)

/-- The store as the caller observes it after attempting the save:
unchanged when `save` raised. -/
def settlement_save_result (db : DB) (s : Settlement) : DB :=
  match settlement_save db s with
  | .ok db2 => db2
  | .error _ => db

/-- `GroupMember.objects.filter(group=..., user=...).exists()`. -/
def isMember (db : DB) (g u : Nat) : Bool :=
  db.members.any (fun m => decide (m.group = g ∧ m.user = u))

/-- `PaymentSerializer` validation (expenses/serializers.py): the
field-level `validate_amount` (lines 167-173) followed by the
object-level `validate` (lines 181-214), with `payment_date` and `today`
as day numbers and the recipient already resolved.  Returns the
field-scoped error the serializer raises, or acceptance. -/
def payment_validate (db : DB) (today : ℤ) (amount : ℤ) (from_user to_user : Nat)
    (group : Option Nat) (payment_date : Option ℤ) : Except (String × String) Unit :=
  if amount ≤ 0 then .error ("amount", "Payment amount must be greater than zero.")
  else if 99999999 < amount then
    .error ("amount", "Payment amount cannot exceed 999,999.99.")
  else
    match group with
    | some g =>
      if isMember db g from_user then
        if isMember db g to_user then
          if from_user = to_user then
            .error ("to_user", "You cannot make a payment to yourself.")
          else
            match payment_date with
            | some d =>
              if today < d then
                .error ("payment_date", "Payment date cannot be in the future.")
              else .ok ()
            | none => .ok ()
        else .error ("to_user", "The receiving user is not a member of this group.")
      else .error ("group", "The paying user is not a member of this group.")
    | none =>
      if from_user = to_user then
        .error ("to_user", "You cannot make a payment to yourself.")
      else
        match payment_date with
        | some d =>
          if today < d then
            .error ("payment_date", "Payment date cannot be in the future.")
          else .ok ()
        | none => .ok ()

theorem orZero_aggSum (l : List ℤ) : orZero (aggSum l) = l.sum := by
  cases l <;> simp [aggSum, orZero]

/-- The balance unfolded to six plain filtered sums (shared helper). -/
theorem calc_eq_sums (db : DB) (g u : Nat) :
    calculate_member_balance db g u =
      ((db.expenses.filter
        (fun e => decide (e.group = g ∧ e.paid_by = u))).map Expense.amount).sum
      - ((db.splits.filter
        (fun s => decide (expenseGroup db s.expense = some g ∧ s.user = u))).map ExpenseSplit.amount).sum
      + ((db.payments.filter
        (fun p => decide (p.group = some g ∧ p.from_user = u))).map Payment.amount).sum
      - ((db.payments.filter
        (fun p => decide (p.group = some g ∧ p.to_user = u))).map Payment.amount).sum
      + ((db.settlements.filter
        (fun s => decide (s.group = some g ∧ s.from_user = u))).map Settlement.amount).sum
      - ((db.settlements.filter
        (fun s => decide (s.group = some g ∧ s.to_user = u))).map Settlement.amount).sum := by
  simp [calculate_member_balance, orZero_aggSum]


/-- Claim C1: the Balance Calculator returns exactly the six-term signed
sum (expenses paid, minus split amounts owed, plus payments made, minus
payments received, plus settlements made, minus settlements received),
and when no event matches any filter the result is 0.  The function is
total, so an absent group or a non-member user merely empties the
filters. -/
theorem C1_member_balance_formula (db : DB) (g u : Nat) :
    (calculate_member_balance db g u =
      ((db.expenses.filter
        (fun e => decide (e.group = g ∧ e.paid_by = u))).map Expense.amount).sum
      - ((db.splits.filter
        (fun s => decide (expenseGroup db s.expense = some g ∧ s.user = u))).map ExpenseSplit.amount).sum
      + ((db.payments.filter
        (fun p => decide (p.group = some g ∧ p.from_user = u))).map Payment.amount).sum
      - ((db.payments.filter
        (fun p => decide (p.group = some g ∧ p.to_user = u))).map Payment.amount).sum
      + ((db.settlements.filter
        (fun s => decide (s.group = some g ∧ s.from_user = u))).map Settlement.amount).sum
      - ((db.settlements.filter
        (fun s => decide (s.group = some g ∧ s.to_user = u))).map Settlement.amount).sum) ∧
    (db.expenses.filter (fun e => decide (e.group = g ∧ e.paid_by = u)) = [] →
     db.splits.filter
       (fun s => decide (expenseGroup db s.expense = some g ∧ s.user = u)) = [] →
     db.payments.filter (fun p => decide (p.group = some g ∧ p.from_user = u)) = [] →
     db.payments.filter (fun p => decide (p.group = some g ∧ p.to_user = u)) = [] →
     db.settlements.filter (fun s => decide (s.group = some g ∧ s.from_user = u)) = [] →
     db.settlements.filter (fun s => decide (s.group = some g ∧ s.to_user = u)) = [] →
     calculate_member_balance db g u = 0) := by
  refine ⟨calc_eq_sums db g u, ?_⟩
  intro h1 h2 h3 h4 h5 h6
  rw [calc_eq_sums, h1, h2, h3, h4, h5, h6]
  simp

theorem C1_member_balance_formula_witness :
    calculate_member_balance dbEmpty 1 1 = 0 :=
  (C1_member_balance_formula dbEmpty 1 1).2 (by decide) (by decide) (by decide)
    (by decide) (by decide) (by decide)

/-- Claim C2 (counterexample): the claim adds net payments from user2 to
user1, but the source subtracts them.  With a single 10.00 payment from
user 2 to user 1 in group 1 the claimed formula evaluates to +1000 cents
while the function returns -1000. -/
theorem C2_counterexample :
    calculate_balance_between_users dbOnePayment 1 1 2 = -1000 ∧
    ((dbOnePayment.payments.filter
      (fun p => decide (p.group = some 1 ∧ p.from_user = 2 ∧ p.to_user = 1))).map
        Payment.amount).sum = 1000 ∧
    (-1000 : ℤ) ≠ 1000 := by decide

/-- Claim C2 (amended): the Pairwise Balance Resolver sums, over expenses
paid by user1, user2's split on that expense, minus the symmetric sum for
expenses paid by user2, MINUS payments and settlements from user2 to
user1, PLUS payments and settlements from user1 to user2 (a payment
toward user1 reduces what user2 owes user1). -/
theorem C2_pairwise_formula (db : DB) (g u1 u2 : Nat) :
    calculate_balance_between_users db g u1 u2 =
      ((db.expenses.filter (fun e => decide (e.group = g ∧ e.paid_by = u1))).map
        (fun e =>
          match db.splits.find? (fun s => decide (s.expense = e.id ∧ s.user = u2)) with
          | some s => s.amount
          | none => 0)).sum
      - ((db.expenses.filter (fun e => decide (e.group = g ∧ e.paid_by = u2))).map
        (fun e =>
          match db.splits.find? (fun s => decide (s.expense = e.id ∧ s.user = u1)) with
          | some s => s.amount
          | none => 0)).sum
      - ((db.payments.filter
          (fun p => decide (p.group = some g ∧ p.from_user = u2 ∧ p.to_user = u1))).map
            Payment.amount).sum
      + ((db.payments.filter
          (fun p => decide (p.group = some g ∧ p.from_user = u1 ∧ p.to_user = u2))).map
            Payment.amount).sum
      - ((db.settlements.filter
          (fun s => decide (s.group = some g ∧ s.from_user = u2 ∧ s.to_user = u1))).map
            Settlement.amount).sum
      + ((db.settlements.filter
          (fun s => decide (s.group = some g ∧ s.from_user = u1 ∧ s.to_user = u2))).map
            Settlement.amount).sum := by
  simp only [calculate_balance_between_users, orZero_aggSum]
  ring

/-- Claim C10: the Pairwise Balance Resolver is antisymmetric, and on a
user and themself it returns 0. -/
theorem C10_pairwise_antisymm (db : DB) (g u1 u2 : Nat) :
    calculate_balance_between_users db g u1 u2
      = - calculate_balance_between_users db g u2 u1 ∧
    calculate_balance_between_users db g u1 u1 = 0 := by
  constructor <;> (simp only [calculate_balance_between_users, orZero_aggSum]; ring)

/-- Claim C6: in the three-member scenario (user 1 paid a 30.00 expense
split 10.00 each among users 1, 2, 3, then user 2 paid user 1 10.00, in
cents), the balances are +10.00, 0, -10.00 and the pairwise balance
between users 1 and 2 is 0. -/
theorem C6_scenario_balances :
    calculate_member_balance dbScenario 1 1 = 1000 ∧
    calculate_member_balance dbScenario 1 2 = 0 ∧
    calculate_member_balance dbScenario 1 3 = -1000 ∧
    calculate_balance_between_users dbScenario 1 1 2 = 0 := by decide

/-- Claim C7 (counterexample): with a single 10.00 payment from user 2 to
user 1, `group_payment_summary` reports +1000 cents for user 1 (it adds
payments received and subtracts payments made) while the Balance
Calculator returns -1000 (it adds payments made and subtracts payments
received), so the endpoint aggregation is not equivalent to the 4.1
formula. -/
theorem C7_counterexample :
    summary_net_balance dbOnePayment 1 1 = 1000 ∧
    calculate_member_balance dbOnePayment 1 1 = -1000 ∧
    (1000 : ℤ) ≠ -1000 := by decide

/-- Claim C7 (amended): the endpoint's per-member net balance equals
`total_paid - total_owed + payments_received - payments_made` — the
payment terms carry the opposite sign from the Balance Calculator and
settlements are ignored — so it coincides with the Balance Calculator
whenever the member's payments made equal their payments received and
their settlements made equal their settlements received (in particular
when the member has no payments and no settlements; the condition is
sufficient, not necessary). -/
theorem C7_summary_net_formula (db : DB) (g u : Nat) :
    (summary_net_balance db g u =
      ((db.expenses.filter
        (fun e => decide (e.group = g ∧ e.paid_by = u))).map Expense.amount).sum
      - ((db.splits.filter
        (fun s => decide (expenseGroup db s.expense = some g ∧ s.user = u))).map ExpenseSplit.amount).sum
      + ((db.payments.filter
        (fun p => decide (p.group = some g ∧ p.to_user = u))).map Payment.amount).sum
      - ((db.payments.filter
        (fun p => decide (p.group = some g ∧ p.from_user = u))).map Payment.amount).sum) ∧
    (((db.payments.filter
        (fun p => decide (p.group = some g ∧ p.from_user = u))).map Payment.amount).sum =
     ((db.payments.filter
        (fun p => decide (p.group = some g ∧ p.to_user = u))).map Payment.amount).sum →
     ((db.settlements.filter
        (fun s => decide (s.group = some g ∧ s.from_user = u))).map Settlement.amount).sum =
     ((db.settlements.filter
        (fun s => decide (s.group = some g ∧ s.to_user = u))).map Settlement.amount).sum →
     summary_net_balance db g u = calculate_member_balance db g u) := by
  constructor
  · simp only [summary_net_balance]
  · intro hp hs
    rw [calc_eq_sums]
    simp only [summary_net_balance]
    omega

theorem C7_summary_net_formula_witness :
    summary_net_balance dbScenario 1 3 = calculate_member_balance dbScenario 1 3 :=
  (C7_summary_net_formula dbScenario 1 3).2 (by decide) (by decide)

theorem partySum_cons (c : Party) (l : List Party) :
    partySum (c :: l) = c.amount + partySum l := by
  simp [partySum]

theorem suggestionSum_cons (s : Suggestion) (l : List Suggestion) :
    suggestionSum (s :: l) = s.amount + suggestionSum l := by
  simp [suggestionSum]

theorem suggestionSum_append (l l' : List Suggestion) :
    suggestionSum (l ++ l') = suggestionSum l + suggestionSum l' := by
  simp [suggestionSum]

theorem partySum_nonneg {l : List Party} (h : ∀ c ∈ l, 0 ≤ c.amount) :
    0 ≤ partySum l := by
  induction l with
  | nil => simp [partySum]
  | cons c cs ih =>
    rw [partySum_cons]
    have h1 := h c (by simp)
    have h2 := ih (fun x hx => h x (by simp [hx]))
    omega

theorem settleDebtor_spec (d : Party) (creds : List Party) : ∀ rem : ℤ, 0 ≤ rem →
    (∀ c ∈ creds, 0 ≤ c.amount) →
    (settleDebtor d rem creds).1 = max 0 (rem - partySum creds) ∧
    partySum (settleDebtor d rem creds).2.1
      = partySum creds - (rem - (settleDebtor d rem creds).1) ∧
    (∀ c ∈ (settleDebtor d rem creds).2.1, 0 ≤ c.amount) ∧
    suggestionSum (settleDebtor d rem creds).2.2 = rem - (settleDebtor d rem creds).1 := by
  induction creds with
  | nil =>
    intro rem hrem _
    simp only [settleDebtor]
    refine ⟨?_, ?_, by simp, ?_⟩ <;> (simp [partySum, suggestionSum]; try omega)
  | cons c cs ih =>
    intro rem hrem hcs
    have hc : 0 ≤ c.amount := hcs c (by simp)
    have hcs' : ∀ x ∈ cs, 0 ≤ x.amount := fun x hx => hcs x (by simp [hx])
    have hSnn : 0 ≤ partySum cs := partySum_nonneg hcs'
    by_cases h : rem ≤ 0 ∨ c.amount ≤ 0
    · obtain ⟨h1, h2, h3, h4⟩ := ih rem hrem hcs'
      simp only [settleDebtor, if_pos h]
      refine ⟨?_, ?_, ?_, h4⟩
      · rw [h1, partySum_cons]; omega
      · rw [partySum_cons, partySum_cons, h2]; omega
      · intro x hx
        rcases List.mem_cons.mp hx with hx | hx
        · rw [hx]; exact hc
        · exact h3 x hx
    · have hrem' : 0 < rem := by omega
      have hca : 0 < c.amount := by omega
      have hamt : 0 ≤ rem - min rem c.amount := by omega
      obtain ⟨h1, h2, h3, h4⟩ := ih (rem - min rem c.amount) hamt hcs'
      simp only [settleDebtor, if_neg h]
      refine ⟨?_, ?_, ?_, ?_⟩
      · rw [h1, partySum_cons]; omega
      · rw [partySum_cons, partySum_cons, h2]; simp only []; omega
      · intro x hx
        rcases List.mem_cons.mp hx with hx | hx
        · rw [hx]; simp only []; omega
        · exact h3 x hx
      · rw [suggestionSum_cons, h4]; simp only []; omega

theorem planDebtors_spec : ∀ (ds creds : List Party),
    (∀ c ∈ creds, 0 ≤ c.amount) → (∀ x ∈ ds, 0 ≤ x.amount) →
    partySum creds = partySum ds →
    (∀ r ∈ (planDebtors ds creds).2.2, r = 0) ∧
    suggestionSum (planDebtors ds creds).2.1 = partySum ds ∧
    partySum (planDebtors ds creds).1 = 0 := by
  intro ds
  induction ds with
  | nil =>
    intro creds _ _ hsum
    refine ⟨by simp [planDebtors], by simp [planDebtors, suggestionSum, partySum], ?_⟩
    simp only [planDebtors]
    rw [hsum]; simp [partySum]
  | cons dd ds ih =>
    intro creds hc hd hsum
    have hdd : 0 ≤ dd.amount := hd dd (by simp)
    have hds : ∀ x ∈ ds, 0 ≤ x.amount := fun x hx => hd x (by simp [hx])
    have hdsnn : 0 ≤ partySum ds := partySum_nonneg hds
    rw [partySum_cons] at hsum
    obtain ⟨h1, h2, h3, h4⟩ := settleDebtor_spec dd creds dd.amount hdd hc
    have hq1 : (settleDebtor dd dd.amount creds).1 = 0 := by rw [h1]; omega
    have hq2 : partySum (settleDebtor dd dd.amount creds).2.1 = partySum ds := by
      rw [h2, hq1]; omega
    obtain ⟨g1, g2, g3⟩ := ih (settleDebtor dd dd.amount creds).2.1 h3 hds hq2
    simp only [planDebtors]
    refine ⟨?_, ?_, g3⟩
    · intro r hr
      rcases List.mem_cons.mp hr with hr | hr
      · rw [hr]; exact hq1
      · exact g1 r hr
    · rw [suggestionSum_append, g2, h4, hq1, partySum_cons]; omega

theorem creditorsOf_sum (ms : List MemberBalance) :
    partySum (creditorsOf ms) = posSum ms := by
  induction ms with
  | nil => rfl
  | cons b bs ih =>
    by_cases h : 0 < b.net_balance
    · have h1 : creditorsOf (b :: bs)
          = ⟨b.user_id, b.user_name, b.net_balance⟩ :: creditorsOf bs := by
        simp [creditorsOf, h]
      have h2 : posSum (b :: bs) = b.net_balance + posSum bs := by
        simp [posSum, h]
      rw [h1, partySum_cons, ih, h2]
    · have h1 : creditorsOf (b :: bs) = creditorsOf bs := by simp [creditorsOf, h]
      have h2 : posSum (b :: bs) = posSum bs := by simp [posSum, h]
      rw [h1, ih, h2]

theorem debtorsOf_sum (ms : List MemberBalance) :
    partySum (debtorsOf ms) = negAbsSum ms := by
  induction ms with
  | nil => rfl
  | cons b bs ih =>
    by_cases h : b.net_balance < 0
    · have h1 : debtorsOf (b :: bs)
          = ⟨b.user_id, b.user_name, |b.net_balance|⟩ :: debtorsOf bs := by
        simp [debtorsOf, h]
      have h2 : negAbsSum (b :: bs) = |b.net_balance| + negAbsSum bs := by
        simp [negAbsSum, h]
      rw [h1, partySum_cons, ih, h2]
    · have h1 : debtorsOf (b :: bs) = debtorsOf bs := by simp [debtorsOf, h]
      have h2 : negAbsSum (b :: bs) = negAbsSum bs := by simp [negAbsSum, h]
      rw [h1, ih, h2]

theorem creditorsOf_nonneg (ms : List MemberBalance) :
    ∀ c ∈ creditorsOf ms, 0 ≤ c.amount := by
  intro c hc
  simp only [creditorsOf, List.mem_filterMap] at hc
  obtain ⟨b, _, hb⟩ := hc
  by_cases h : 0 < b.net_balance
  · rw [if_pos h] at hb
    cases hb
    exact le_of_lt h
  · rw [if_neg h] at hb
    cases hb

theorem debtorsOf_nonneg (ms : List MemberBalance) :
    ∀ c ∈ debtorsOf ms, 0 ≤ c.amount := by
  intro c hc
  simp only [debtorsOf, List.mem_filterMap] at hc
  obtain ⟨b, _, hb⟩ := hc
  by_cases h : b.net_balance < 0
  · rw [if_pos h] at hb
    cases hb
    exact abs_nonneg _
  · rw [if_neg h] at hb
    cases hb

theorem balances_sum_split (ms : List MemberBalance) :
    (ms.map MemberBalance.net_balance).sum = posSum ms - negAbsSum ms := by
  induction ms with
  | nil => rfl
  | cons b bs ih =>
    by_cases h : 0 < b.net_balance
    · have hp : posSum (b :: bs) = b.net_balance + posSum bs := by simp [posSum, h]
      have hn : negAbsSum (b :: bs) = negAbsSum bs := by
        simp [negAbsSum, show ¬ b.net_balance < 0 by omega]
      rw [List.map_cons, List.sum_cons, hp, hn]; omega
    · by_cases h2 : b.net_balance < 0
      · have hp : posSum (b :: bs) = posSum bs := by simp [posSum, h]
        have hn : negAbsSum (b :: bs) = |b.net_balance| + negAbsSum bs := by
          simp [negAbsSum, h2]
        have ha : |b.net_balance| = -b.net_balance := abs_of_neg h2
        rw [List.map_cons, List.sum_cons, hp, hn, ha]; omega
      · have hp : posSum (b :: bs) = posSum bs := by simp [posSum, h]
        have hn : negAbsSum (b :: bs) = negAbsSum bs := by simp [negAbsSum, h2]
        rw [List.map_cons, List.sum_cons, hp, hn]; omega

/-- Claim C3: on zero-summing input the planner's suggested amounts total
exactly the sum of positive balances (equal to the sum of absolute
negative balances) and every debtor's final remainder is zero; on the
spec scenario A = +40.00, B = -20.00, C = -20.00 (in cents) it emits
exactly the two suggestions B to A 20.00 and C to A 20.00, transferring
40.00 in total, with both debtors reaching 0. -/
theorem C3_planner_zero_sum :
    (∀ ms : List MemberBalance, (ms.map MemberBalance.net_balance).sum = 0 →
      suggestionSum (generate_settlement_suggestions ms) = posSum ms ∧
      posSum ms = negAbsSum ms ∧
      ∀ r ∈ (planDebtors (debtorsOf ms) (creditorsOf ms)).2.2, r = 0) ∧
    generate_settlement_suggestions scenarioBalances =
      [⟨2, "B", 1, "A", 2000⟩, ⟨3, "C", 1, "A", 2000⟩] ∧
    suggestionSum (generate_settlement_suggestions scenarioBalances) = 4000 ∧
    (planDebtors (debtorsOf scenarioBalances) (creditorsOf scenarioBalances)).2.2
      = [0, 0] := by
  constructor
  · intro ms hsum
    have hsplit := balances_sum_split ms
    have heq : posSum ms = negAbsSum ms := by omega
    have hcs : partySum (creditorsOf ms) = partySum (debtorsOf ms) := by
      rw [creditorsOf_sum, debtorsOf_sum]; omega
    obtain ⟨g1, g2, g3⟩ := planDebtors_spec (debtorsOf ms) (creditorsOf ms)
      (creditorsOf_nonneg ms) (debtorsOf_nonneg ms) hcs
    refine ⟨?_, heq, g1⟩
    simp only [generate_settlement_suggestions]
    rw [g2, debtorsOf_sum]; omega
  · exact ⟨by decide, by decide, by decide⟩

theorem C3_planner_zero_sum_witness :
    suggestionSum (generate_settlement_suggestions scenarioBalances)
      = posSum scenarioBalances ∧
    posSum scenarioBalances = negAbsSum scenarioBalances :=
  ⟨(C3_planner_zero_sum.1 scenarioBalances (by decide)).1,
   (C3_planner_zero_sum.1 scenarioBalances (by decide)).2.1⟩

/-- Claim C5 (falsified by the code): in a state where every cached
balance agrees with the Balance Calculator, modifying the stored expense
so that its payer changes from user 1 to user 2 triggers
`update_balances_on_expense_change`, which recomputes only the new payer
and the split users; user 1's cached balance stays at 3000 cents while
the formula now yields 0 for them, a stale cache the claim rules out. -/
theorem C5_stale_cache_on_payer_change :
    (cachedBalance dbStale0 1 1 = some (calculate_member_balance dbStale0 1 1) ∧
     cachedBalance dbStale0 1 2 = some (calculate_member_balance dbStale0 1 2)) ∧
    cachedBalance (expense_save dbStale0 expStale) 1 1 = some 3000 ∧
    calculate_member_balance (expense_save dbStale0 expStale) 1 1 = 0 ∧
    cachedBalance (expense_save dbStale0 expStale) 1 1 ≠
      some (calculate_member_balance (expense_save dbStale0 expStale) 1 1) := by
  decide

/-- Claim C8: saving a settlement with amount ≤ 0 raises the `ValueError`
before any write, so the stored settlements and every cached balance are
unchanged. -/
theorem C8_nonpositive_settlement_rejected (db : DB) (s : Settlement)
    (h : s.amount ≤ 0) :
    settlement_save db s = .error "Settlement amount must be positive." ∧
    settlement_save_result db s = db ∧
    (settlement_save_result db s).settlements = db.settlements ∧
    ∀ g u, cachedBalance (settlement_save_result db s) g u = cachedBalance db g u := by
  have he : settlement_save db s = .error "Settlement amount must be positive." := by
    simp [settlement_save, h]
  refine ⟨he, ?_, ?_, ?_⟩ <;> simp [settlement_save_result, he]

theorem C8_nonpositive_settlement_rejected_witness :
    settlement_save dbScenario ⟨2, 1, some 1, 0⟩
      = .error "Settlement amount must be positive." ∧
    settlement_save_result dbScenario ⟨2, 1, some 1, 0⟩ = dbScenario :=
  ⟨(C8_nonpositive_settlement_rejected dbScenario ⟨2, 1, some 1, 0⟩ (by decide)).1,
   (C8_nonpositive_settlement_rejected dbScenario ⟨2, 1, some 1, 0⟩ (by decide)).2.1⟩

/-- Claim C9 (counterexample): a payment of 1,000,000.00 (100000000
cents) from user 1 to user 2 with no group and no date violates none of
InvalidAmount, SelfTransfer, FutureDate, yet the serializer rejects it
with the 999,999.99 upper-bound error the claim omits. -/
theorem C9_counterexample :
    payment_validate dbEmpty 0 100000000 1 2 none none
      = .error ("amount", "Payment amount cannot exceed 999,999.99.") ∧
    (0 : ℤ) < 100000000 ∧ (1 : Nat) ≠ 2 :=
  ⟨rfl, by decide, by decide⟩

/-- Claim C9 (amended): payment validation rejects with a field-scoped
error every non-positive amount (InvalidAmount on `amount`), every
self-transfer, and every future-dated payment; and it accepts any request
whose amount is positive and at most 999,999.99 (a cap the source also
enforces), whose users differ, whose date is not in the future, and whose
users are group members when a group is given. -/
theorem C9_payment_validation (db : DB) (today amount : ℤ) (fu tu : Nat)
    (grp : Option Nat) (pd : Option ℤ) :
    (amount ≤ 0 →
      payment_validate db today amount fu tu grp pd
        = .error ("amount", "Payment amount must be greater than zero.")) ∧
    (fu = tu → (payment_validate db today amount fu tu grp pd).isOk = false) ∧
    (∀ d, pd = some d → today < d →
      (payment_validate db today amount fu tu grp pd).isOk = false) ∧
    (0 < amount → amount ≤ 99999999 → fu ≠ tu →
      (∀ d, pd = some d → d ≤ today) →
      (∀ g, grp = some g → isMember db g fu = true ∧ isMember db g tu = true) →
      payment_validate db today amount fu tu grp pd = .ok ()) := by
  refine ⟨?_, ?_, ?_, ?_⟩
  · intro h
    simp [payment_validate, h]
  · intro h
    subst h
    unfold payment_validate
    rcases grp with _ | g
    · split_ifs <;> simp_all [Except.isOk, Except.toBool]
    · split_ifs <;> simp_all [Except.isOk, Except.toBool]
      split_ifs <;> simp [Except.toBool]
  · intro d hd hfut
    subst hd
    unfold payment_validate
    rcases grp with _ | g
    · split_ifs <;> simp_all [Except.isOk, Except.toBool]
    · split_ifs <;> simp_all [Except.isOk, Except.toBool] <;>
        (split_ifs <;> simp [Except.toBool])
  · intro h1 h2 h3 h4 h5
    have hna : ¬ amount ≤ 0 := by omega
    have hnc : ¬ 99999999 < amount := by omega
    rcases grp with _ | g
    · rcases pd with _ | d
      · simp [payment_validate, hna, hnc, h3]
      · have hd : ¬ today < d := by have := h4 d rfl; omega
        simp [payment_validate, hna, hnc, h3, hd]
    · obtain ⟨hm1, hm2⟩ := h5 g rfl
      rcases pd with _ | d
      · simp [payment_validate, hna, hnc, h3, hm1, hm2]
      · have hd : ¬ today < d := by have := h4 d rfl; omega
        simp [payment_validate, hna, hnc, h3, hm1, hm2, hd]

theorem C9_payment_validation_witness :
    payment_validate dbScenario 10 5000 2 1 (some 1) (some 9) = .ok () :=
  (C9_payment_validation dbScenario 10 5000 2 1 (some 1) (some 9)).2.2.2
    (by decide) (by decide) (by decide)
    (fun d hd => by cases hd; decide)
    (fun g hg => by cases hg; exact ⟨by decide, by decide⟩)

theorem sum_map_add {α : Type} (l : List α) (f g : α → ℤ) :
    (l.map (fun x => f x + g x)).sum = (l.map f).sum + (l.map g).sum := by
  induction l with
  | nil => simp
  | cons a l ih => simp [ih]; ring

theorem sum_map_six {α : Type} (l : List α) (a b c d e f : α → ℤ) :
    (l.map (fun x => a x - b x + c x - d x + e x - f x)).sum
      = (l.map a).sum - (l.map b).sum + (l.map c).sum - (l.map d).sum
        + (l.map e).sum - (l.map f).sum := by
  induction l with
  | nil => simp
  | cons x l ih => simp [ih]; ring

theorem sum_filter_eq_sum_ite {α : Type} (l : List α) (c : α → Bool) (f : α → ℤ) :
    ((l.filter c).map f).sum = (l.map (fun x => if c x then f x else 0)).sum := by
  induction l with
  | nil => rfl
  | cons a l ih =>
    by_cases h : c a
    · simp [List.filter_cons, h, ih]
    · simp [List.filter_cons, h, ih]

theorem sum_ite_key (L : List Nat) (k : Nat) (a : ℤ) (hnd : L.Nodup) (hk : k ∈ L) :
    (L.map (fun u => if k = u then a else 0)).sum = a := by
  induction L with
  | nil => cases hk
  | cons y L ih =>
    obtain ⟨hy, hnd'⟩ := List.nodup_cons.mp hnd
    rcases List.mem_cons.mp hk with rfl | h
    · have hz : (L.map (fun u => if k = u then a else 0)).sum = 0 := by
        apply List.sum_eq_zero
        intro v hv
        obtain ⟨u, hu, rfl⟩ := List.mem_map.mp hv
        have hne : k ≠ u := fun he => hy (he ▸ hu)
        simp [hne]
      simp [hz]
    · have hky : k ≠ y := fun he => hy (he ▸ h)
      simp [hky, ih hnd' h]

theorem sum_sum_swap {α β : Type} (A : List α) (B : List β) (f : α → β → ℤ) :
    (A.map (fun a => (B.map (f a)).sum)).sum
      = (B.map (fun b => (A.map (fun a => f a b)).sum)).sum := by
  induction A with
  | nil =>
    induction B with
    | nil => rfl
    | cons b B ihB => simp only [List.map_cons, List.sum_cons, ← ihB]; simp
  | cons a A ih =>
    simp only [List.map_cons, List.sum_cons, ih]
    rw [sum_map_add]

theorem sum_over_users_filter {β : Type} (L : List Nat) (P : List β)
    (inG : β → Prop) [DecidablePred inG] (key : β → Nat) (amt : β → ℤ)
    (hnd : L.Nodup) (hmem : ∀ p ∈ P, inG p → key p ∈ L) :
    (L.map (fun u =>
      ((P.filter (fun p => decide (inG p ∧ key p = u))).map amt).sum)).sum
      = ((P.filter (fun p => decide (inG p))).map amt).sum := by
  have step1 : (L.map (fun u =>
      ((P.filter (fun p => decide (inG p ∧ key p = u))).map amt).sum)).sum
      = (L.map (fun u =>
          (P.map (fun p => if inG p ∧ key p = u then amt p else 0)).sum)).sum := by
    simp only [sum_filter_eq_sum_ite, decide_eq_true_eq]
  rw [step1, sum_sum_swap, sum_filter_eq_sum_ite]
  simp only [decide_eq_true_eq]
  apply congrArg List.sum
  apply List.map_congr_left
  intro p hp
  by_cases hG : inG p
  · rw [if_pos hG]
    have hfun : (fun u => if inG p ∧ key p = u then amt p else 0)
        = (fun u => if key p = u then amt p else 0) := by
      funext u
      by_cases h : key p = u
      · simp [h, hG]
      · simp [h]
    rw [hfun, sum_ite_key L (key p) (amt p) hnd (hmem p hp hG)]
  · rw [if_neg hG]
    apply List.sum_eq_zero
    intro v hv
    obtain ⟨u, hu, rfl⟩ := List.mem_map.mp hv
    simp [hG]

theorem lookup_weight_sum (g eid : Nat) (a : ℤ) :
    ∀ E : List Expense, (E.map Expense.id).Nodup →
    ((E.filter (fun e => decide (e.group = g))).map
      (fun e => if eid = e.id then a else 0)).sum
      = if (E.find? (fun e => decide (e.id = eid))).map Expense.group = some g
          then a else 0 := by
  intro E
  induction E with
  | nil => intro _; simp
  | cons x E ih =>
    intro hnd
    rw [List.map_cons] at hnd
    obtain ⟨hx, hnd'⟩ := List.nodup_cons.mp hnd
    by_cases hid : x.id = eid
    · have hf : (x :: E).find? (fun e => decide (e.id = eid)) = some x := by
        rw [List.find?_cons_of_pos _ (by simp [hid])]
      rw [hf]
      have hz : ((E.filter (fun e => decide (e.group = g))).map
          (fun e => if eid = e.id then a else 0)).sum = 0 := by
        apply List.sum_eq_zero
        intro v hv
        obtain ⟨e, he, rfl⟩ := List.mem_map.mp hv
        have heE : e ∈ E := (List.mem_filter.mp he).1
        have hne : eid ≠ e.id := by
          intro hcon
          apply hx
          rw [hid, hcon]
          exact List.mem_map_of_mem Expense.id heE
        simp [hne]
      by_cases hg2 : x.group = g
      · rw [List.filter_cons_of_pos (by simp [hg2]), List.map_cons, List.sum_cons, hz]
        simp [hid, hg2]
      · rw [List.filter_cons_of_neg (by simp [hg2]), hz]
        simp [hg2]
    · have hf : (x :: E).find? (fun e => decide (e.id = eid))
          = E.find? (fun e => decide (e.id = eid)) := by
        rw [List.find?_cons_of_neg _ (by simp [hid])]
      rw [hf, ← ih hnd']
      by_cases hg2 : x.group = g
      · rw [List.filter_cons_of_pos (by simp [hg2]), List.map_cons, List.sum_cons]
        have hne : eid ≠ x.id := fun h => hid h.symm
        simp [hne]
      · rw [List.filter_cons_of_neg (by simp [hg2])]

theorem expense_split_total (db : DB) (g : Nat)
    (h_ids : (db.expenses.map Expense.id).Nodup)
    (h_split_sum : ∀ e ∈ db.expenses, e.group = g →
      ((db.splits.filter (fun s => decide (s.expense = e.id))).map
        ExpenseSplit.amount).sum = e.amount) :
    ((db.splits.filter (fun s => decide (expenseGroup db s.expense = some g))).map
        ExpenseSplit.amount).sum
      = ((db.expenses.filter (fun e => decide (e.group = g))).map Expense.amount).sum := by
  have step1 : ((db.expenses.filter (fun e => decide (e.group = g))).map
      Expense.amount).sum
      = ((db.expenses.filter (fun e => decide (e.group = g))).map
          (fun e => ((db.splits.filter (fun s => decide (s.expense = e.id))).map
            ExpenseSplit.amount).sum)).sum := by
    apply congrArg List.sum
    apply List.map_congr_left
    intro e he
    obtain ⟨heE, hg'⟩ := List.mem_filter.mp he
    exact (h_split_sum e heE (by simpa using hg')).symm
  rw [step1]
  have step2 : ∀ e : Expense,
      ((db.splits.filter (fun s => decide (s.expense = e.id))).map
        ExpenseSplit.amount).sum
      = (db.splits.map (fun s => if s.expense = e.id then s.amount else 0)).sum := by
    intro e
    rw [sum_filter_eq_sum_ite]
    simp only [decide_eq_true_eq]
  simp only [step2]
  rw [sum_sum_swap, sum_filter_eq_sum_ite]
  simp only [decide_eq_true_eq]
  apply congrArg List.sum
  apply List.map_congr_left
  intro s _
  simp only [expenseGroup]
  exact (lookup_weight_sum g s.expense s.amount db.expenses h_ids).symm

/-- Claim C4 (counterexample): in group 1 whose single member paid a
30.00 expense with no splits, every event references only members of the
group, yet the balances sum to 3000 cents, not 0 — split totals are not
forced to match expense amounts, so the membership condition alone does
not give a zero sum. -/
theorem C4_counterexample :
    balancesSum dbNoSplits 1 = 3000 ∧ (3000 : ℤ) ≠ 0 := by decide

/-- Claim C4 (amended): for a group with well-formed rows (no duplicate
membership users, no duplicate expense ids) whose expenses, splits,
payments and settlements reference only members of the group, and whose
every expense's split amounts sum exactly to the expense amount, the
Balance Calculator's results over all members sum to 0 in every such
state (hence after every sequence of event mutations preserving these
conditions). -/
theorem C4_zero_sum (db : DB) (g : Nat)
    (h_users : (groupUsers db g).Nodup)
    (h_ids : (db.expenses.map Expense.id).Nodup)
    (h_exp_mem : ∀ e ∈ db.expenses, e.group = g → e.paid_by ∈ groupUsers db g)
    (h_split_mem : ∀ s ∈ db.splits, expenseGroup db s.expense = some g →
      s.user ∈ groupUsers db g)
    (h_pay_mem : ∀ p ∈ db.payments, p.group = some g →
      p.from_user ∈ groupUsers db g ∧ p.to_user ∈ groupUsers db g)
    (h_set_mem : ∀ s ∈ db.settlements, s.group = some g →
      s.from_user ∈ groupUsers db g ∧ s.to_user ∈ groupUsers db g)
    (h_split_sum : ∀ e ∈ db.expenses, e.group = g →
      ((db.splits.filter (fun s => decide (s.expense = e.id))).map
        ExpenseSplit.amount).sum = e.amount) :
    balancesSum db g = 0 := by
  unfold balancesSum
  simp only [calc_eq_sums]
  rw [sum_map_six]
  rw [sum_over_users_filter (groupUsers db g) db.expenses (fun e => e.group = g)
      Expense.paid_by Expense.amount h_users h_exp_mem,
    sum_over_users_filter (groupUsers db g) db.splits
      (fun s => expenseGroup db s.expense = some g) ExpenseSplit.user
      ExpenseSplit.amount h_users h_split_mem,
    sum_over_users_filter (groupUsers db g) db.payments (fun p => p.group = some g)
      Payment.from_user Payment.amount h_users
      (fun p hp hg => (h_pay_mem p hp hg).1),
    sum_over_users_filter (groupUsers db g) db.payments (fun p => p.group = some g)
      Payment.to_user Payment.amount h_users
      (fun p hp hg => (h_pay_mem p hp hg).2),
    sum_over_users_filter (groupUsers db g) db.settlements (fun s => s.group = some g)
      Settlement.from_user Settlement.amount h_users
      (fun s hs hg => (h_set_mem s hs hg).1),
    sum_over_users_filter (groupUsers db g) db.settlements (fun s => s.group = some g)
      Settlement.to_user Settlement.amount h_users
      (fun s hs hg => (h_set_mem s hs hg).2)]
  rw [expense_split_total db g h_ids h_split_sum]
  ring

theorem C4_zero_sum_witness : balancesSum dbScenario 1 = 0 :=
  C4_zero_sum dbScenario 1 (by decide) (by decide) (by decide) (by decide)
    (by decide) (by decide) (by decide)
